import Mathlib

/-!
Verification development for the Guardfin client crypto envelope and sync
engine (src/client/app.js) and the server sync store (the express server
source). Each definition is a shallow embedding of the corresponding
source function; external primitives (WebCrypto PBKDF2 and AES-GCM, JSON
serialization) are taken as function parameters, since they are library
calls and not code of this repository.
-/

/-! Envelope and SecureCrypto.encrypt / SecureCrypto.decrypt.
The JS object returned by encrypt is
version, algorithm, iv, data (ciphertext plus tag bytes), timestamp. -/

structure Envelope where
  version : String
  algorithm : String
  iv : List Nat
  data : List Nat
  timestamp : Nat
  deriving Repr, DecidableEq

/-- SecureCrypto.encrypt from app.js: serializes the record, calls the
AEAD (crypto.subtle.encrypt with AES-GCM, a library primitive passed here
as aeadEncrypt) under the session key with a fresh iv, and wraps the
result with the fixed version and algorithm tags and a timestamp. -/
def SecureCrypto.encrypt {K R : Type} (aeadEncrypt : K → List Nat → List Nat → List Nat)
    (serialize : R → List Nat) (key : K) (iv : List Nat) (now : Nat) (record : R) : Envelope :=
  { version := "1.0", algorithm := "AES-GCM", iv := iv,
    data := aeadEncrypt key iv (serialize record), timestamp := now }

/-- SecureCrypto.decrypt from app.js: rejects any envelope whose version
or algorithm tag differs from the fixed values, then calls the AEAD
decryption (which fails on authentication mismatch, modeled by Option)
and deserializes the plaintext. Thrown JS errors are modeled as none. -/
def SecureCrypto.decrypt {K R : Type} (aeadDecrypt : K → List Nat → List Nat → Option (List Nat))
    (deserialize : List Nat → Option R) (key : K) (obj : Envelope) : Option R :=
  if obj.version = "1.0" ∧ obj.algorithm = "AES-GCM" then
    match aeadDecrypt key obj.iv obj.data with
    | none => none
    | some plain => deserialize plain
  else
    none

/-! SecureCrypto.createVerifier / SecureCrypto.verifyPassword.
The PBKDF2 deriveBits call is a library primitive, passed as kdf. -/

/-- SecureCrypto.createVerifier from app.js: derives the verifier bytes
from passphrase and salt via the PBKDF2 primitive. -/
def SecureCrypto.createVerifier (kdf : String → List Nat → List Nat)
    (passphrase : String) (salt : List Nat) : List Nat :=
  kdf passphrase salt

/-- The accumulator loop of verifyPassword:
result starts at 0 and each step ORs in the XOR of one byte pair. -/
def xorAccumulate (computed stored : List Nat) : Nat :=
  (List.zipWith Nat.xor computed stored).foldl Nat.lor 0

/-- SecureCrypto.verifyPassword from app.js: recomputes the verifier,
returns false on length mismatch, otherwise ORs together the XORs of all
byte pairs and compares the accumulated result with 0. -/
def SecureCrypto.verifyPassword (kdf : String → List Nat → List Nat)
    (passphrase : String) (salt : List Nat) (storedVerifier : List Nat) : Bool :=
  let computed := SecureCrypto.createVerifier kdf passphrase salt
  if computed.length ≠ storedVerifier.length then false
  else decide (xorAccumulate computed storedVerifier = 0)

/-! Database.signIn over the accounts store. -/

structure Account where
  name : String
  salt : List Nat
  verifier : List Nat
  deriving Repr, DecidableEq

/-- The two distinct failures signIn can surface: the PouchDB get call
rejects with a not-found error for an unknown id (which signIn does not
catch), and signIn itself throws Invalid passphrase after a failed
verification. -/
inductive SignInError where
  | notFound
  | invalidPassphrase
  deriving Repr, DecidableEq

/-- Database.signIn from app.js: loads the account by id (the store get
rejects with not-found for an unknown id, and signIn lets that propagate),
then verifies the passphrase and throws Invalid passphrase on mismatch. -/
def Database.signIn (kdf : String → List Nat → List Nat)
    (accountsDB : List (String × Account))
    (accountId passphrase : String) : Except SignInError Account :=
  match accountsDB.lookup accountId with
  | none => Except.error SignInError.notFound
  | some account =>
    if SecureCrypto.verifyPassword kdf passphrase account.salt account.verifier
    then Except.ok account
    else Except.error SignInError.invalidPassphrase

/-! The sync scheduling state machine of Database:
the pendingSync and isSyncing boolean fields, the setTimeout timers, and
two ghost observers: unsynced records whether some local mutation has not
yet been captured by any sync batch, and inFlight counts network sync
requests currently outstanding. -/

structure SyncState where
  pendingSync : Bool
  isSyncing : Bool
  userDB : Bool
  timers : List Nat
  unsynced : Bool
  inFlight : Nat
  deriving Repr, DecidableEq

/-- The state of a freshly signed-in session: both flags false, no timer
scheduled, a user database open. -/
def initState : SyncState :=
  { pendingSync := false, isSyncing := false, userDB := true,
    timers := [], unsynced := false, inFlight := 0 }

/-- Database.scheduleSync from app.js: a no-op when pendingSync is already
set; otherwise sets pendingSync and schedules one setTimeout callback for
2000 ms from now. -/
def Database.scheduleSync (now : Nat) (s : SyncState) : SyncState :=
  if s.pendingSync then s
  else { s with pendingSync := true, timers := s.timers ++ [now + 2000] }

/-- A local mutation (Database.save, Database.update or Database.delete):
writes the record (making the store differ from the last synced snapshot,
hence unsynced) and calls scheduleSync. -/
def Database.mutate (now : Nat) (s : SyncState) : SyncState :=
  Database.scheduleSync now { s with unsynced := true }

/-- The entry of Database.syncToServer from app.js: returns immediately
when a sync is already running or no user database is open; otherwise
sets isSyncing, clears pendingSync, snapshots the whole store into the
batch (so every mutation so far is captured: unsynced becomes false) and
dispatches the network request (inFlight increases). -/
def Database.syncToServerEntry (s : SyncState) : SyncState :=
  if s.isSyncing || !s.userDB then s
  else { s with isSyncing := true, pendingSync := false, unsynced := false,
                inFlight := s.inFlight + 1 }

/-- A scheduled setTimeout callback firing: the timer is consumed and
syncToServer is invoked. With no timer scheduled nothing can fire. -/
def Database.fireTimer (s : SyncState) : SyncState :=
  match s.timers with
  | [] => s
  | _ :: rest => Database.syncToServerEntry { s with timers := rest }

/-- The network request of a running sync resolving (success, error or
offline alike): the finally block clears isSyncing, and the request is no
longer outstanding. Nothing else is touched; in particular pendingSync is
not re-examined. -/
def Database.finishSync (s : SyncState) : SyncState :=
  if s.isSyncing then { s with isSyncing := false, inFlight := s.inFlight - 1 }
  else s

/-- The events of a session: a local mutation at a wall-clock time, a
timer callback firing, and an in-flight sync resolving. -/
inductive SyncEv where
  | mutate (now : Nat)
  | fire
  | finish
  deriving Repr, DecidableEq

def syncStep (s : SyncState) : SyncEv → SyncState
  | SyncEv.mutate now => Database.mutate now s
  | SyncEv.fire => Database.fireTimer s
  | SyncEv.finish => Database.finishSync s

def syncRun (s : SyncState) (evs : List SyncEv) : SyncState :=
  evs.foldl syncStep s

/-- A session state from which no sync can ever be scheduled again:
pendingSync is set (so scheduleSync is a no-op forever), no timer is
scheduled, and an unsynced mutation exists. -/
def stuckState (s : SyncState) : Prop :=
  s.pendingSync = true ∧ s.timers = [] ∧ s.unsynced = true

/-- The in-flight counter is fully determined by the isSyncing flag. -/
def flightInvariant (s : SyncState) : Prop :=
  s.inFlight = if s.isSyncing then 1 else 0

/-- A concrete session history: a mutation at time 0, its timer firing at
2000 and starting a sync; a second mutation at 2500 while that sync is
still in flight, its fresh timer firing at 4500 while the first sync is
still running, and the first sync finally resolving afterwards. -/
def droppedTrace : List SyncEv :=
  [SyncEv.mutate 0, SyncEv.fire, SyncEv.mutate 2500, SyncEv.fire, SyncEv.finish]

def droppedState : SyncState := syncRun initState droppedTrace

/-- The state right after a first sync has been dispatched: a mutation at
time 0 and its timer firing. -/
def duringSyncState : SyncState := syncRun initState [SyncEv.mutate 0, SyncEv.fire]

/-! Database.getAll / Database.getByType. -/

/-- One row of the per-user store: id, type, the encrypted envelope (rows
without one are skipped by getAll), creation time. -/
structure UserDoc where
  docId : String
  docType : String
  encryptedData : Option Envelope
  createdAt : Nat
  deriving Repr, DecidableEq

/-- A decrypted record payload. The JS object spread in getAll lets keys
of the decrypted data shadow the outer fields; typeOverride models a key
named type inside the plaintext, and payload stands for the remaining
content. -/
structure PlainRec where
  typeOverride : Option String
  payload : Nat
  deriving Repr, DecidableEq

/-- A record as returned by getAll. -/
structure OutRec where
  docId : String
  rtype : String
  createdAt : Nat
  payload : Nat
  deriving Repr, DecidableEq

/-- The object built for one row in getAll: id, type and createdAt from
the doc, then the decrypted data spread over them (its type key, when
present, wins). -/
def mergeRec (doc : UserDoc) (plain : PlainRec) : OutRec :=
  { docId := doc.docId, rtype := plain.typeOverride.getD doc.docType,
    createdAt := doc.createdAt, payload := plain.payload }

/-- Database.getAll from app.js: iterates all rows; rows without an
encryptedData field are skipped; each envelope is decrypted individually
(dec is the session decryption, SecureCrypto.decrypt under the session
key) and a row whose decryption throws is caught, logged and skipped. -/
def Database.getAll (dec : Envelope → Option PlainRec) (docs : List UserDoc) : List OutRec :=
  docs.filterMap fun doc =>
    match doc.encryptedData with
    | none => none
    | some envelope =>
      match dec envelope with
      | none => none
      | some plain => some (mergeRec doc plain)

/-- Database.getByType from app.js: getAll filtered on the type field of
the returned records. -/
def Database.getByType (dec : Envelope → Option PlainRec) (docs : List UserDoc)
    (t : String) : List OutRec :=
  (Database.getAll dec docs).filter fun r => r.rtype == t

/-! The server: validateSyncData and the sync endpoint handler. -/

/-- The shape of a JSON value as far as the server validation inspects
it: strings, numbers, booleans, arrays (only their length matters here),
objects and null. -/
inductive JVal where
  | jstr (s : String)
  | jnum (n : Nat)
  | jbool (b : Bool)
  | jarr (len : Nat)
  | jobj
  | jnull
  deriving Repr, DecidableEq

/-- JS falsiness of a present value, as tested by the bang operator. -/
def JVal.isFalsy : JVal → Bool
  | JVal.jstr s => s == ""
  | JVal.jnum n => n == 0
  | JVal.jbool b => !b
  | JVal.jnull => true
  | _ => false

def JVal.isString : JVal → Bool
  | JVal.jstr _ => true
  | _ => false

def JVal.isArray : JVal → Bool
  | JVal.jarr _ => true
  | _ => false

/-- The request body of POST /api/sync; an absent key is none. -/
structure SyncBody where
  accountId : Option JVal
  transactions : Option JVal
  recurring_bills : Option JVal
  goals : Option JVal
  budgets : Option JVal
  reminders : Option JVal
  settings : Option JVal
  deriving Repr, DecidableEq

/-- JS falsiness of a possibly absent value (undefined is falsy). -/
def optFalsy : Option JVal → Bool
  | none => true
  | some v => v.isFalsy

/-- Whether a possibly absent value is a string (undefined is not). -/
def optString : Option JVal → Bool
  | none => false
  | some v => v.isString

/-- One iteration of the validation loop: a field that is present but not
an array yields an error message. -/
def arrayFieldError (fieldName : String) (v : Option JVal) : Option String :=
  match v with
  | none => none
  | some x => if x.isArray then none else some (fieldName ++ " must be an array")

/-- The validation loop returns at the first failing field. -/
def firstSomeError : List (Option String) → Option String
  | [] => none
  | some e :: _ => some e
  | none :: rest => firstSomeError rest

/-- validateSyncData from the server source: rejects a falsy or non-string
accountId, then checks the five data fields in declaration order and
rejects the first one that is present but not an array. none means the
request passes validation. -/
def validateSyncData (b : SyncBody) : Option String :=
  if optFalsy b.accountId || !optString b.accountId then
    some "Valid accountId required"
  else
    firstSomeError
      [arrayFieldError "transactions" b.transactions,
       arrayFieldError "recurring_bills" b.recurring_bills,
       arrayFieldError "goals" b.goals,
       arrayFieldError "budgets" b.budgets,
       arrayFieldError "reminders" b.reminders]

/-- The content of one stored per-account file: a parseable bundle with
its syncCount (absent in JS is modeled by none) and the synced body, or a
file whose JSON.parse throws. -/
inductive FileContent where
  | good (syncCount : Option Nat) (body : SyncBody)
  | bad
  deriving Repr, DecidableEq

/-- The server data directory: a map from path to file content. -/
def SrvFS : Type := String → Option FileContent

/-- The per-account data file path used by the sync handler. -/
def dataFilePath (accountId : String) : String :=
  "secure-data/" ++ accountId ++ ".json"

/-- The temporary path: the data file path with a tmp suffix. -/
def tempFilePath (accountId : String) : String :=
  dataFilePath accountId ++ ".tmp"

/-- fs.writeFileSync: replaces the content at one path. -/
def fsWrite (fs : SrvFS) (p : String) (c : FileContent) : SrvFS :=
  fun q => if q = p then some c else fs q

/-- fs.renameSync: the destination atomically receives the content of the
source and the source disappears. -/
def fsRename (fs : SrvFS) (src dst : String) : SrvFS :=
  fun q => if q = src then none else if q = dst then fs src else fs q

/-- The accountId string of a validated body. -/
def bodyAccountId (b : SyncBody) : String :=
  match b.accountId with
  | some (JVal.jstr s) => s
  | _ => ""

/-- The observable outcome of the handler: HTTP status and the syncCount
field of the JSON response (none when the response carries no count). -/
structure SyncResponse where
  status : Nat
  syncCount : Option Nat
  deriving Repr, DecidableEq

/-- The syncCount stored by the handler: starts at 0, and when the data
file exists and parses, becomes the previous count (0 when the field is
missing) plus one. An existing but unreadable file leaves it at 0. -/
def newSyncCount (fs : SrvFS) (file : String) : Nat :=
  match fs file with
  | some (FileContent.good c _) => c.getD 0 + 1
  | some FileContent.bad => 0
  | none => 0

/-- The POST /api/sync handler: validation middleware first (a failure
answers 400 and touches nothing), then the new bundle is written to the
temporary path and renamed over the per-account data file; the response
carries the stored syncCount. -/
def postSync (fs : SrvFS) (b : SyncBody) : SyncResponse × SrvFS :=
  match validateSyncData b with
  | some _ => ({ status := 400, syncCount := none }, fs)
  | none =>
    let file := dataFilePath (bodyAccountId b)
    let count := newSyncCount fs file
    let fs1 := fsWrite fs (tempFilePath (bodyAccountId b)) (FileContent.good (some count) b)
    ({ status := 200, syncCount := some count }, fsRename fs1 (tempFilePath (bodyAccountId b)) file)

/-- The handler interrupted by a crash after the temporary write but
before the rename: only the temporary path has been touched. -/
def postSyncCrashBeforeRename (fs : SrvFS) (b : SyncBody) : SrvFS :=
  match validateSyncData b with
  | some _ => fs
  | none =>
    fsWrite fs (tempFilePath (bodyAccountId b))
      (FileContent.good (some (newSyncCount fs (dataFilePath (bodyAccountId b)))) b)

/-! Concrete instantiations of the external primitives and sample data,
used by the witnesses below. -/

def idAeadEncrypt : Unit → List Nat → List Nat → List Nat := fun _ _ m => m

def idAeadDecrypt : Unit → List Nat → List Nat → Option (List Nat) := fun _ _ c => some c

def natSerialize : Nat → List Nat := fun n => [n]

def natDeserialize : List Nat → Option Nat
  | [n] => some n
  | _ => none

/-- A toy key derivation that depends on the passphrase, so that wrong
passphrases verify as wrong. -/
def lengthKdf : String → List Nat → List Nat := fun p _ => [p.length]

def demoAccount : Account := { name := "Alex", salt := [], verifier := [7] }

def demoDB : List (String × Account) := [("alex-id", demoAccount)]

def goodEnvelope : Envelope :=
  { version := "1.0", algorithm := "AES-GCM", iv := [], data := [5], timestamp := 0 }

def badEnvelope : Envelope :=
  { version := "1.0", algorithm := "AES-GCM", iv := [], data := [], timestamp := 0 }

/-- A toy session decryption: fails on an empty ciphertext, succeeds
otherwise. -/
def demoDec : Envelope → Option PlainRec :=
  fun e => match e.data with
    | [] => none
    | x :: _ => some { typeOverride := none, payload := x }

def goodDoc : UserDoc :=
  { docId := "transaction_1", docType := "transaction",
    encryptedData := some goodEnvelope, createdAt := 0 }

def badDoc : UserDoc :=
  { docId := "transaction_2", docType := "transaction",
    encryptedData := some badEnvelope, createdAt := 0 }

def emptyFS : SrvFS := fun _ => none

def demoBody : SyncBody :=
  { accountId := some (JVal.jstr "acc-1"), transactions := none,
    recurring_bills := none, goals := none, budgets := none,
    reminders := none, settings := none }

def badBody0 : SyncBody :=
  { accountId := none, transactions := none, recurring_bills := none,
    goals := none, budgets := none, reminders := none, settings := none }

/-! Theorems. -/

/-- C1: for every key established at sign-in and every JSON-serializable
record R, decrypt(key, encrypt(key, R)) returns a record equal to R.
Stated for any AEAD for which decryption inverts encryption under the
session key (the AES-GCM contract) and any serialization with a parse
inverse (the JSON contract). -/
theorem encrypt_decrypt_roundtrip {K R : Type}
    (aeadEncrypt : K → List Nat → List Nat → List Nat)
    (aeadDecrypt : K → List Nat → List Nat → Option (List Nat))
    (serialize : R → List Nat) (deserialize : List Nat → Option R)
    (key : K) (iv : List Nat) (now : Nat) (record : R)
    (hAead : ∀ iv2 m, aeadDecrypt key iv2 (aeadEncrypt key iv2 m) = some m)
    (hSer : ∀ x, deserialize (serialize x) = some x) :
    SecureCrypto.decrypt aeadDecrypt deserialize key
      (SecureCrypto.encrypt aeadEncrypt serialize key iv now record) = some record := by
  simp [SecureCrypto.encrypt, SecureCrypto.decrypt, hAead, hSer]

/-- Witness for C1 at a concrete instantiation. -/
theorem encrypt_decrypt_roundtrip_witness :
    SecureCrypto.decrypt idAeadDecrypt natDeserialize ()
      (SecureCrypto.encrypt idAeadEncrypt natSerialize () [1, 2, 3] 99 42) = some 42 :=
  encrypt_decrypt_roundtrip idAeadEncrypt idAeadDecrypt natSerialize natDeserialize
    () [1, 2, 3] 99 42 (fun _ _ => rfl) (fun _ => rfl)

/-- Bitwise OR of two naturals is zero exactly when both are zero. -/
theorem lor_eq_zero_iff_aux (a b : Nat) : Nat.lor a b = 0 ↔ a = 0 ∧ b = 0 := by
  constructor
  · intro h
    have hb : ∀ i, (a ||| b).testBit i = Nat.testBit 0 i := by
      intro i
      exact congrArg (fun n => Nat.testBit n i) h
    constructor
    · apply Nat.eq_of_testBit_eq
      intro i
      have := hb i
      simp only [Nat.testBit_or, Nat.zero_testBit, Bool.or_eq_false_iff] at this
      simp [this.1]
    · apply Nat.eq_of_testBit_eq
      intro i
      have := hb i
      simp only [Nat.testBit_or, Nat.zero_testBit, Bool.or_eq_false_iff] at this
      simp [this.2]
  · rintro ⟨rfl, rfl⟩
    rfl

/-- The OR-accumulated fold is zero exactly when the accumulator and all
list elements are zero: the loop inspects every element, with no early
exit. -/
theorem foldl_lor_eq_zero (l : List Nat) (acc : Nat) :
    l.foldl Nat.lor acc = 0 ↔ acc = 0 ∧ ∀ x ∈ l, x = 0 := by
  induction l generalizing acc with
  | nil => simp
  | cons x xs ih =>
    rw [List.foldl_cons, ih, lor_eq_zero_iff_aux]
    simp only [List.mem_cons]
    constructor
    · rintro ⟨⟨h1, h2⟩, h3⟩
      exact ⟨h1, fun y hy => hy.elim (fun hr => hr ▸ h2) (h3 y)⟩
    · rintro ⟨h1, h2⟩
      exact ⟨⟨h1, h2 x (Or.inl rfl)⟩, fun y hy => h2 y (Or.inr hy)⟩

/-- For equal-length lists, all pairwise XORs vanish exactly when the
lists are equal. -/
theorem zipWith_xor_all_zero (a : List Nat) :
    ∀ b : List Nat, a.length = b.length →
    ((∀ z ∈ List.zipWith Nat.xor a b, z = 0) ↔ a = b) := by
  induction a with
  | nil =>
    intro b h
    cases b with
    | nil => simp
    | cons y ys => simp at h
  | cons x xs ih =>
    intro b h
    cases b with
    | nil => simp at h
    | cons y ys =>
      have h2 : xs.length = ys.length := by simpa using h
      simp only [List.zipWith_cons_cons, List.mem_cons, List.cons.injEq]
      constructor
      · intro hz
        refine ⟨Nat.xor_eq_zero.mp (hz _ (Or.inl rfl)), ?_⟩
        exact (ih ys h2).mp fun z hz2 => hz z (Or.inr hz2)
      · rintro ⟨rfl, rfl⟩ z hz
        rcases hz with rfl | hz
        · exact Nat.xor_self x
        · exact ((ih xs rfl).mpr rfl) z hz

/-- C6: verifyPassword returns false when the recomputed verifier and the
stored verifier differ in length, and for equal-length inputs returns
true exactly when every byte matches (list equality); the result is the
OR-accumulated XOR over all byte pairs (foldl over the whole zip), so no
early exit happens at the first differing byte. -/
theorem verifyPassword_spec (kdf : String → List Nat → List Nat)
    (passphrase : String) (salt storedVerifier : List Nat) :
    ((SecureCrypto.createVerifier kdf passphrase salt).length ≠ storedVerifier.length →
      SecureCrypto.verifyPassword kdf passphrase salt storedVerifier = false) ∧
    (SecureCrypto.verifyPassword kdf passphrase salt storedVerifier = true ↔
      SecureCrypto.createVerifier kdf passphrase salt = storedVerifier) := by
  have hlen : ∀ h : (SecureCrypto.createVerifier kdf passphrase salt).length ≠
      storedVerifier.length,
      SecureCrypto.verifyPassword kdf passphrase salt storedVerifier = false := by
    intro h
    simp [SecureCrypto.verifyPassword, h]
  refine ⟨hlen, ?_⟩
  by_cases h : (SecureCrypto.createVerifier kdf passphrase salt).length =
      storedVerifier.length
  · have : SecureCrypto.verifyPassword kdf passphrase salt storedVerifier =
        decide (xorAccumulate (SecureCrypto.createVerifier kdf passphrase salt)
          storedVerifier = 0) := by
      simp [SecureCrypto.verifyPassword, h]
    rw [this, decide_eq_true_iff, xorAccumulate, foldl_lor_eq_zero]
    rw [zipWith_xor_all_zero _ _ h]
    simp
  · rw [hlen h]
    constructor
    · intro hfalse
      exact absurd hfalse (by simp)
    · intro heq
      exact absurd (congrArg List.length heq) h

/-- Witness for C6: a length mismatch yields false. -/
theorem verifyPassword_spec_witness :
    SecureCrypto.verifyPassword lengthKdf "pw" [] [3, 4] = false :=
  (verifyPassword_spec lengthKdf "pw" [] [3, 4]).1 (by decide)

/-- C2 counterexample: signing in with an accountId that does not exist
does not raise the InvalidPassphrase error; the not-found rejection of
the account store propagates instead, so the two failure modes are
distinguishable, contrary to the claim. -/
theorem signIn_missing_account_cex :
    Database.signIn lengthKdf [] "missing-id" "pw" = Except.error SignInError.notFound ∧
    SignInError.notFound ≠ SignInError.invalidPassphrase :=
  ⟨rfl, by decide⟩

/-- C2 (amended): a wrong passphrase for an existing account raises
InvalidPassphrase; a nonexistent accountId instead propagates the account
store not-found error, and a correct passphrase signs in. The two failure
modes are therefore not identical. -/
theorem signIn_error_cases (kdf : String → List Nat → List Nat)
    (accountsDB : List (String × Account)) (accountId passphrase : String) :
    (accountsDB.lookup accountId = none →
      Database.signIn kdf accountsDB accountId passphrase =
        Except.error SignInError.notFound) ∧
    (∀ account, accountsDB.lookup accountId = some account →
      SecureCrypto.verifyPassword kdf passphrase account.salt account.verifier = false →
      Database.signIn kdf accountsDB accountId passphrase =
        Except.error SignInError.invalidPassphrase) ∧
    (∀ account, accountsDB.lookup accountId = some account →
      SecureCrypto.verifyPassword kdf passphrase account.salt account.verifier = true →
      Database.signIn kdf accountsDB accountId passphrase = Except.ok account) := by
  refine ⟨?_, ?_, ?_⟩
  · intro h
    simp [Database.signIn, h]
  · intro account h hv
    simp [Database.signIn, h, hv]
  · intro account h hv
    simp [Database.signIn, h, hv]

/-- Witness for C2 (amended): a wrong passphrase on the existing demo
account yields InvalidPassphrase. -/
theorem signIn_error_cases_witness :
    Database.signIn lengthKdf demoDB "alex-id" "wrong-pass" =
      Except.error SignInError.invalidPassphrase :=
  (signIn_error_cases lengthKdf demoDB "alex-id" "wrong-pass").2.1
    demoAccount (by decide) (by decide)

/-- C3 counterexample: a second mutation at time 1000, arriving inside
the debounce window opened by a mutation at time 0, leaves the session
state completely unchanged: the single timer still expires at 2000
(2 seconds after the first mutation), not at 3000 (2 seconds after the
last), so the timer is not restarted. -/
theorem scheduleSync_no_restart_cex :
    syncRun initState [SyncEv.mutate 0, SyncEv.mutate 1000] =
      syncRun initState [SyncEv.mutate 0] ∧
    (syncRun initState [SyncEv.mutate 0, SyncEv.mutate 1000]).timers = [2000] ∧
    (syncRun initState [SyncEv.mutate 0, SyncEv.mutate 1000]).timers ≠ [3000] := by
  refine ⟨?_, ?_, ?_⟩ <;> decide

/-- C3 (amended): a mutation arriving while a sync is already pending is
ignored by scheduleSync: no new timer is created and the existing timer
is not reset, so the batch is built 2 seconds after the first mutation of
a burst; only a mutation arriving with no sync pending starts a debounce
timer, 2000 ms from its own time. Bursts are still coalesced into one
timer. -/
theorem mutate_timer_behavior (now : Nat) (s : SyncState) :
    (s.pendingSync = true →
      Database.mutate now s = { s with unsynced := true }) ∧
    (s.pendingSync = false →
      (Database.mutate now s).timers = s.timers ++ [now + 2000] ∧
      (Database.mutate now s).pendingSync = true) := by
  constructor
  · intro h
    simp [Database.mutate, Database.scheduleSync, h]
  · intro h
    simp [Database.mutate, Database.scheduleSync, h]

/-- Witness for C3 (amended): the second mutation of the counterexample
burst leaves the pending timer untouched. -/
theorem mutate_timer_behavior_witness :
    Database.mutate 1000 (syncRun initState [SyncEv.mutate 0]) =
      { syncRun initState [SyncEv.mutate 0] with unsynced := true } :=
  (mutate_timer_behavior 1000 (syncRun initState [SyncEv.mutate 0])).1 (by decide)

/-- One step preserves the in-flight invariant: the isSyncing guard at
the entry of syncToServer is what prevents a second concurrent sync. -/
theorem flightInvariant_step (s : SyncState) (e : SyncEv)
    (h : flightInvariant s) : flightInvariant (syncStep s e) := by
  obtain ⟨p, sy, u, t, un, f⟩ := s
  unfold flightInvariant at h ⊢
  cases e with
  | mutate now =>
    cases p <;> simp_all [syncStep, Database.mutate, Database.scheduleSync]
  | fire =>
    cases t with
    | nil => simpa using h
    | cons hd tl =>
      cases sy <;> cases u <;>
        simp_all [syncStep, Database.fireTimer, Database.syncToServerEntry]
  | finish =>
    cases sy <;> simp_all [syncStep, Database.finishSync]

/-- The in-flight invariant holds along any event sequence. -/
theorem flightInvariant_run (s : SyncState) (evs : List SyncEv)
    (h : flightInvariant s) : flightInvariant (syncRun s evs) := by
  induction evs generalizing s with
  | nil => exact h
  | cons e rest ih => exact ih (syncStep s e) (flightInvariant_step s e h)

/-- C4: in every state reachable from a fresh session, at most one sync
request is in flight; the isSyncing guard makes a timer callback that
fires during a running sync a no-op rather than a second dispatch. -/
theorem at_most_one_sync_in_flight (evs : List SyncEv) :
    (syncRun initState evs).inFlight ≤ 1 := by
  have h := flightInvariant_run initState evs rfl
  unfold flightInvariant at h
  rw [h]
  split <;> decide

/-- A stuck session stays stuck under every event: mutations see
pendingSync set and return without scheduling, no timer exists to fire,
and a resolving sync clears only isSyncing. -/
theorem stuckState_step (s : SyncState) (e : SyncEv)
    (h : stuckState s) : stuckState (syncStep s e) := by
  obtain ⟨p, sy, u, t, un, f⟩ := s
  unfold stuckState at h ⊢
  obtain ⟨h1, h2, h3⟩ := h
  simp only at h1 h2 h3
  subst h1 h2 h3
  cases e with
  | mutate now => simp [syncStep, Database.mutate, Database.scheduleSync]
  | fire => simp [syncStep, Database.fireTimer]
  | finish =>
    cases sy <;> simp [syncStep, Database.finishSync]

/-- A stuck session stays stuck along any event sequence. -/
theorem stuckState_run (s : SyncState) (evs : List SyncEv)
    (h : stuckState s) : stuckState (syncRun s evs) := by
  induction evs generalizing s with
  | nil => exact h
  | cons e rest ih => exact ih (syncStep s e) (stuckState_step s e h)

/-- C5 counterexample: in the concrete history droppedTrace, a mutation
at time 2500 occurs while a sync is in flight; its fresh timer fires at
4500 before that sync resolves, the attempt dies at the isSyncing guard
with pendingSync still set, and after the sync resolves the mutation is
still unsynced with no timer left. No continuation of the session can
ever sync it: the mutation is silently dropped, contrary to the claim. -/
theorem sync_mutation_dropped_cex :
    droppedState.unsynced = true ∧ droppedState.isSyncing = false ∧
    droppedState.inFlight = 0 ∧
    ¬ ∃ evs : List SyncEv, (syncRun droppedState evs).unsynced = false := by
  refine ⟨by decide, by decide, by decide, ?_⟩
  rintro ⟨evs, hev⟩
  have h := stuckState_run droppedState evs (by unfold stuckState; refine ⟨?_, ?_, ?_⟩ <;> decide)
  unfold stuckState at h
  rw [h.2.2] at hev
  exact absurd hev (by decide)

/-- C5 (amended): a mutation occurring while a sync is in flight (and no
sync pending) schedules a fresh debounce cycle, because syncToServer
cleared pendingSync at dispatch. If the in-flight sync resolves before
the fresh timer fires, the firing starts a new sync that carries the
mutation. But if the timer fires while the sync is still in flight, the
attempt dies at the isSyncing guard with pendingSync left set, and from
then on the mutation is never synced in any continuation of the session:
it is silently dropped. -/
theorem mutation_during_sync (now : Nat) (s : SyncState)
    (hSync : s.isSyncing = true) (hPend : s.pendingSync = false)
    (hUser : s.userDB = true) (hTim : s.timers = []) :
    ((Database.mutate now s).pendingSync = true ∧
      (Database.mutate now s).timers = [now + 2000]) ∧
    ((syncRun s [SyncEv.mutate now, SyncEv.finish, SyncEv.fire]).isSyncing = true ∧
      (syncRun s [SyncEv.mutate now, SyncEv.finish, SyncEv.fire]).unsynced = false) ∧
    (∀ evs : List SyncEv,
      (syncRun (syncRun s [SyncEv.mutate now, SyncEv.fire]) evs).unsynced = true) := by
  obtain ⟨p, sy, u, t, un, f⟩ := s
  simp only at hSync hPend hUser hTim
  subst hSync hPend hUser hTim
  refine ⟨?_, ?_, ?_⟩
  · constructor
    · simp [Database.mutate, Database.scheduleSync]
    · simp [Database.mutate, Database.scheduleSync]
  · constructor
    · simp [syncRun, syncStep, Database.mutate, Database.scheduleSync,
        Database.finishSync, Database.fireTimer, Database.syncToServerEntry]
    · simp [syncRun, syncStep, Database.mutate, Database.scheduleSync,
        Database.finishSync, Database.fireTimer, Database.syncToServerEntry]
  · intro evs
    have hstuck : stuckState (syncRun ⟨false, true, true, [], un, f⟩
        [SyncEv.mutate now, SyncEv.fire]) := by
      unfold stuckState
      simp [syncRun, syncStep, Database.mutate, Database.scheduleSync,
        Database.fireTimer, Database.syncToServerEntry]
    exact (stuckState_run _ evs hstuck).2.2

/-- Witness for C5 (amended): from the concrete state with one sync in
flight, a mutation at 2500 followed by the sync resolving and the fresh
timer firing yields a new running sync that has captured the mutation. -/
theorem mutation_during_sync_witness :
    (syncRun duringSyncState [SyncEv.mutate 2500, SyncEv.finish, SyncEv.fire]).unsynced
      = false :=
  ((mutation_during_sync 2500 duringSyncState (by decide) (by decide) (by decide)
      (by decide)).2.1).2

/-- The temporary path differs from the final data file path: it is four
characters longer. -/
theorem dataFilePath_ne_tempFilePath (accountId : String) :
    dataFilePath accountId ≠ tempFilePath accountId := by
  intro h
  have hlen := congrArg String.length h
  rw [tempFilePath, String.length_append] at hlen
  have h4 : String.length ".tmp" = 4 := rfl
  rw [h4] at hlen
  omega

/-- C7: the sync handler writes the incoming bundle to the temporary path
and renames it over the per-account data file. A crash between the
temporary write and the rename leaves the previously stored bundle
unchanged at the data file path (and at every other path except the
temporary one), and a completed handler leaves exactly the new bundle at
the data file path, installed by the single atomic rename. -/
theorem put_atomic_crash_safe (fs : SrvFS) (b : SyncBody) :
    (∀ q, q ≠ tempFilePath (bodyAccountId b) →
      postSyncCrashBeforeRename fs b q = fs q) ∧
    postSyncCrashBeforeRename fs b (dataFilePath (bodyAccountId b)) =
      fs (dataFilePath (bodyAccountId b)) ∧
    (validateSyncData b = none →
      (postSync fs b).2 (dataFilePath (bodyAccountId b)) =
        some (FileContent.good
          (some (newSyncCount fs (dataFilePath (bodyAccountId b)))) b)) := by
  have huntouched : ∀ q, q ≠ tempFilePath (bodyAccountId b) →
      postSyncCrashBeforeRename fs b q = fs q := by
    intro q hq
    unfold postSyncCrashBeforeRename
    cases hval : validateSyncData b with
    | some e => rfl
    | none => simp [fsWrite, hq]
  refine ⟨huntouched,
    huntouched _ (dataFilePath_ne_tempFilePath (bodyAccountId b)), ?_⟩
  intro hval
  have hne := dataFilePath_ne_tempFilePath (bodyAccountId b)
  simp [postSync, hval, fsRename, fsWrite, hne]

/-- Witness for C7: with an empty store and the demo body, the crashed
handler leaves an unrelated path (and the data file path, via the second
conjunct) untouched. -/
theorem put_atomic_crash_safe_witness :
    postSyncCrashBeforeRename emptyFS demoBody "other-file" = emptyFS "other-file" :=
  (put_atomic_crash_safe emptyFS demoBody).1 "other-file" (by decide)

/-- C8: getAll decrypts each record individually; a record whose
decryption fails is skipped without aborting the read, so the result is
the concatenation of the results on the rows around it; every row that
does decrypt contributes its merged record; and getByType returns exactly
the getAll results whose type field matches the requested type. -/
theorem getAll_resilient (dec : Envelope → Option PlainRec)
    (l r : List UserDoc) (d : UserDoc) (e : Envelope)
    (hEnc : d.encryptedData = some e) (hDec : dec e = none) :
    Database.getAll dec (l ++ d :: r) = Database.getAll dec l ++ Database.getAll dec r ∧
    (∀ d2 e2 p2, d2 ∈ l ++ r → d2.encryptedData = some e2 → dec e2 = some p2 →
      mergeRec d2 p2 ∈ Database.getAll dec (l ++ d :: r)) ∧
    (∀ t out, out ∈ Database.getByType dec (l ++ d :: r) t ↔
      out ∈ Database.getAll dec (l ++ d :: r) ∧ out.rtype = t) := by
  refine ⟨?_, ?_, ?_⟩
  · unfold Database.getAll
    rw [List.filterMap_append, List.filterMap_cons]
    simp [hEnc, hDec]
  · intro d2 e2 p2 hmem hEnc2 hDec2
    unfold Database.getAll
    rw [List.mem_filterMap]
    refine ⟨d2, ?_, by simp [hEnc2, hDec2]⟩
    rcases List.mem_append.mp hmem with hl | hr
    · exact List.mem_append_left _ hl
    · exact List.mem_append_right _ (List.mem_cons_of_mem d hr)
  · intro t out
    unfold Database.getByType
    rw [List.mem_filter]
    simp [beq_iff_eq]

/-- Witness for C8: with one decryptable row followed by one corrupted
row, getAll returns exactly the good row and skips the bad one. -/
theorem getAll_resilient_witness :
    Database.getAll demoDec ([goodDoc] ++ badDoc :: []) =
      Database.getAll demoDec [goodDoc] ++ Database.getAll demoDec [] :=
  (getAll_resilient demoDec [goodDoc] [] badDoc badEnvelope rfl rfl).1

/-- If one entry of the checked list is an error, the validation loop
returns some error (the first one encountered). -/
theorem firstSomeError_ne_none (L : List (Option String)) (e : String)
    (hmem : some e ∈ L) : ∃ e2, firstSomeError L = some e2 := by
  induction L with
  | nil => cases hmem
  | cons x rest ih =>
    cases x with
    | some y => exact ⟨y, rfl⟩
    | none =>
      rcases List.mem_cons.mp hmem with h | h
      · cases h
      · exact ih h

/-- A body that is invalid in the sense of the claim fails validation. -/
theorem validateSyncData_rejects (b : SyncBody)
    (h : b.accountId = none ∨
      (∃ v, b.accountId = some v ∧ v.isString = false) ∨
      (∃ v, (b.transactions = some v ∨ b.recurring_bills = some v ∨
             b.goals = some v ∨ b.budgets = some v ∨ b.reminders = some v) ∧
        v.isArray = false)) :
    ∃ e, validateSyncData b = some e := by
  rcases h with h0 | ⟨v, hv, hs⟩ | ⟨v, hwhere, ha⟩
  · exact ⟨"Valid accountId required", by simp [validateSyncData, optFalsy, optString, h0]⟩
  · exact ⟨"Valid accountId required", by simp [validateSyncData, optString, hv, hs]⟩
  · cases hc : (optFalsy b.accountId || !optString b.accountId) with
    | true => exact ⟨"Valid accountId required", by simp [validateSyncData, hc]⟩
    | false =>
      have hval : validateSyncData b =
          firstSomeError
            [arrayFieldError "transactions" b.transactions,
             arrayFieldError "recurring_bills" b.recurring_bills,
             arrayFieldError "goals" b.goals,
             arrayFieldError "budgets" b.budgets,
             arrayFieldError "reminders" b.reminders] := by
        simp [validateSyncData, hc]
      rw [hval]
      rcases hwhere with h5 | h5 | h5 | h5 | h5
      · exact firstSomeError_ne_none _ ("transactions must be an array")
          (by simp [List.mem_cons, arrayFieldError, h5, ha])
      · exact firstSomeError_ne_none _ ("recurring_bills must be an array")
          (by simp [List.mem_cons, arrayFieldError, h5, ha])
      · exact firstSomeError_ne_none _ ("goals must be an array")
          (by simp [List.mem_cons, arrayFieldError, h5, ha])
      · exact firstSomeError_ne_none _ ("budgets must be an array")
          (by simp [List.mem_cons, arrayFieldError, h5, ha])
      · exact firstSomeError_ne_none _ ("reminders must be an array")
          (by simp [List.mem_cons, arrayFieldError, h5, ha])

/-- C9: a POST sync request whose accountId is missing or not a string,
or in which one of the five data fields is present but not an array, is
answered with HTTP 400 by the validation middleware, and the store is
left completely unchanged (no file of any account is touched). -/
theorem invalid_sync_rejected (fs : SrvFS) (b : SyncBody)
    (h : b.accountId = none ∨
      (∃ v, b.accountId = some v ∧ v.isString = false) ∨
      (∃ v, (b.transactions = some v ∨ b.recurring_bills = some v ∨
             b.goals = some v ∨ b.budgets = some v ∨ b.reminders = some v) ∧
        v.isArray = false)) :
    (postSync fs b).1.status = 400 ∧ (postSync fs b).2 = fs := by
  obtain ⟨e, he⟩ := validateSyncData_rejects b h
  rw [postSync, he]
  exact ⟨rfl, rfl⟩

/-- Witness for C9: a body without accountId is rejected with 400 and
the empty store stays empty. -/
theorem invalid_sync_rejected_witness :
    (postSync emptyFS badBody0).1.status = 400 ∧ (postSync emptyFS badBody0).2 = emptyFS :=
  invalid_sync_rejected emptyFS badBody0 (Or.inl rfl)

/-- C10: on a validated sync request, the handler stores syncCount 0 when
no readable bundle existed for the account (no file, or an unreadable
file), and otherwise stores the previous syncCount (0 when the field is
absent) plus 1; the syncCount in the response always equals the freshly
stored value, so it counts the prior successful syncs and does not
include the current one. -/
theorem syncCount_semantics (fs : SrvFS) (b : SyncBody)
    (hval : validateSyncData b = none) :
    (fs (dataFilePath (bodyAccountId b)) = none →
      (postSync fs b).1.syncCount = some 0 ∧
      (postSync fs b).2 (dataFilePath (bodyAccountId b)) =
        some (FileContent.good (some 0) b)) ∧
    (fs (dataFilePath (bodyAccountId b)) = some FileContent.bad →
      (postSync fs b).1.syncCount = some 0 ∧
      (postSync fs b).2 (dataFilePath (bodyAccountId b)) =
        some (FileContent.good (some 0) b)) ∧
    (∀ c prev, fs (dataFilePath (bodyAccountId b)) = some (FileContent.good c prev) →
      (postSync fs b).1.syncCount = some (c.getD 0 + 1) ∧
      (postSync fs b).2 (dataFilePath (bodyAccountId b)) =
        some (FileContent.good (some (c.getD 0 + 1)) b)) := by
  have hne := dataFilePath_ne_tempFilePath (bodyAccountId b)
  refine ⟨?_, ?_, ?_⟩
  · intro hfile
    constructor
    · simp [postSync, hval, newSyncCount, hfile]
    · simp [postSync, hval, newSyncCount, hfile, fsRename, fsWrite, hne]
  · intro hfile
    constructor
    · simp [postSync, hval, newSyncCount, hfile]
    · simp [postSync, hval, newSyncCount, hfile, fsRename, fsWrite, hne]
  · intro c prev hfile
    constructor
    · simp [postSync, hval, newSyncCount, hfile]
    · simp [postSync, hval, newSyncCount, hfile, fsRename, fsWrite, hne]

/-- Witness for C10: the first successful sync of a fresh account stores
and returns syncCount 0. -/
theorem syncCount_semantics_witness :
    (postSync emptyFS demoBody).1.syncCount = some 0 :=
  ((syncCount_semantics emptyFS demoBody rfl).1 rfl).1
